import Mathlib

/-!
Shallow embedding of the fault-tolerant execution core of the
academic-research-mentor repository, together with theorems checking its
natural-language specification.

Modelled source files:
- `src/academic_research_mentor/core/fallback.py` (circuit breaker, retries)
- `src/academic_research_mentor/core/execution_engine.py` (primary/fallback driver)
- `src/academic_research_mentor/tools/guidelines/evidence_collector.py`
- `agent-mentor-guidelines-test/src/cache.py`

Conventions: Python floats (timestamps, scores, backoff) are modelled as `Rat`;
Python dicts used as keyed maps are association lists `List (String × α)`
preserving insertion order (as CPython dicts do); a call to `time.time()` is an
explicit `now : Rat` argument; `random.uniform` draws and tool executions are
oracle arguments (`Nat → _`, indexed by attempt).
-/

/-- Lookup in a Python-dict-like association list (`d.get(k)`). -/
def assocGet {α : Type} (l : List (String × α)) (k : String) : Option α :=
  (l.find? (fun kv => kv.1 == k)).map (·.2)

/-- Update-or-append in a Python-dict-like association list (`d[k] = v`):
an existing key keeps its position, a new key is appended, as in CPython. -/
def assocSet {α : Type} : List (String × α) → String → α → List (String × α)
  | [], k, v => [(k, v)]
  | kv :: t, k, v =>
    if kv.1 == k then (k, v) :: t else kv :: assocSet t k v

/-- Deletion from a Python-dict-like association list (`del d[k]`). -/
def assocErase {α : Type} (l : List (String × α)) (k : String) :
    List (String × α) :=
  l.filter (fun kv => !(kv.1 == k))

/-- Outcome of one call to a tool's `execute(inputs, context)`: a normal
return value or a raised exception carrying `str(e)`. -/
inductive ExecOutcome
  | ok (data : String)
  | err (msg : String)
deriving Repr, DecidableEq

/-- Whether the call raised. -/
def ExecOutcome.isErr : ExecOutcome → Bool
  | .ok _ => false
  | .err _ => true

/-- A tool as seen by the executors: `executable` models
`hasattr(tool, "execute")`; `execute i` is the outcome of the `i`-th attempt
(the outside world may answer differently on different attempts). -/
structure Tool where
  executable : Bool := true
  execute : Nat → ExecOutcome

namespace Fallback

/-- `ToolState` enum from `core/fallback.py`. -/
inductive ToolState
  | healthy
  | degraded
  | circuitOpen
deriving Repr, DecidableEq

/-- The `.value` string of the enum member. -/
def ToolState.value : ToolState → String
  | .healthy => "healthy"
  | .degraded => "degraded"
  | .circuitOpen => "circuit_open"

/-- `ToolHealth` dataclass: per-tool circuit-breaker bookkeeping. -/
structure ToolHealth where
  name : String
  failure_count : Nat := 0
  success_count : Nat := 0
  last_failure_time : Option Rat := none
  last_success_time : Option Rat := none
  state : ToolState := .healthy
  consecutive_failures : Nat := 0
  circuit_open_until : Option Rat := none
deriving Repr, DecidableEq

/-- `FallbackPolicy` dataclass: configuration plus the mutable health map. -/
structure FallbackPolicy where
  max_retries : Nat := 2
  base_backoff_ms : Rat := 1000
  max_backoff_ms : Rat := 10000
  circuit_failure_threshold : Nat := 3
  circuit_recovery_time_s : Rat := 60
  jitter_factor : Rat := 1/10
  health_tracking : List (String × ToolHealth) := []
deriving Repr, DecidableEq

/-- `FallbackExecutor._record_failure`: bump failure counters and open the
circuit once `consecutive_failures` reaches the threshold. -/
def record_failure (p : FallbackPolicy) (now : Rat) (tool_name : String) :
    FallbackPolicy :=
  let h0 := (assocGet p.health_tracking tool_name).getD { name := tool_name }
  let h1 : ToolHealth := { h0 with
    failure_count := h0.failure_count + 1
    consecutive_failures := h0.consecutive_failures + 1
    last_failure_time := some now }
  let h2 : ToolHealth :=
    if p.circuit_failure_threshold ≤ h1.consecutive_failures then
      { h1 with
        state := .circuitOpen
        circuit_open_until := some (now + p.circuit_recovery_time_s) }
    else h1
  { p with health_tracking := assocSet p.health_tracking tool_name h2 }

/-- `FallbackExecutor._record_success`: bump success counters, reset the
consecutive-failure streak, and leave the degraded state on every third
cumulative success. -/
def record_success (p : FallbackPolicy) (now : Rat) (tool_name : String) :
    FallbackPolicy :=
  let h0 := (assocGet p.health_tracking tool_name).getD { name := tool_name }
  let h1 : ToolHealth := { h0 with
    success_count := h0.success_count + 1
    consecutive_failures := 0
    last_success_time := some now }
  let h2 : ToolHealth :=
    if h1.state = ToolState.degraded ∧ h1.success_count % 3 = 0 then
      { h1 with state := .healthy }
    else h1
  { p with health_tracking := assocSet p.health_tracking tool_name h2 }

/-- `FallbackExecutor._is_circuit_open`: the should-skip check. It can mutate
the health map: when the recovery deadline has passed it moves the tool to the
degraded (half-open) state. Python truthiness detail: a stored deadline that
equals `0.0` is falsy, so the recovery branch is not taken for it. -/
def is_circuit_open (p : FallbackPolicy) (now : Rat) (tool_name : String) :
    Bool × FallbackPolicy :=
  match assocGet p.health_tracking tool_name with
  | none => (false, p)
  | some h =>
    if h.state ≠ ToolState.circuitOpen then (false, p)
    else
      match h.circuit_open_until with
      | some u =>
        if u ≠ 0 ∧ u < now then
          let h' : ToolHealth :=
            { h with state := .degraded, circuit_open_until := none }
          (false,
            { p with health_tracking := assocSet p.health_tracking tool_name h' })
        else (true, p)
      | none => (true, p)

/-- One row of `FallbackExecutor.get_tool_health_summary()`. -/
structure HealthSummary where
  state : String
  success_rate : Rat
  consecutive_failures : Nat
  last_failure : Option Rat
  last_success : Option Rat
deriving Repr, DecidableEq

/-- The summary row built for one `ToolHealth` record by
`get_tool_health_summary`. -/
def summarize (h : ToolHealth) : HealthSummary :=
  { state := h.state.value
    success_rate := (h.success_count : Rat) /
      ((max (h.success_count + h.failure_count) 1 : Nat) : Rat)
    consecutive_failures := h.consecutive_failures
    last_failure := h.last_failure_time
    last_success := h.last_success_time }

/-- `FallbackExecutor.get_tool_health_summary`. -/
def get_tool_health_summary (p : FallbackPolicy) :
    List (String × HealthSummary) :=
  p.health_tracking.map (fun kv => (kv.1, summarize kv.2))

/-- The un-jittered backoff in milliseconds computed inside
`_execute_with_retries` for retry number `retry ≥ 1`:
`min(base_backoff_ms * 2**(retry-1), max_backoff_ms)`. -/
def backoff_ms (p : FallbackPolicy) (retry : Nat) : Rat :=
  min (p.base_backoff_ms * 2 ^ (retry - 1)) p.max_backoff_ms

/-- The actual slept backoff: `backoff_ms * (1 + jitter)` where `jitter` is the
`random.uniform(-jitter_factor, jitter_factor)` draw. -/
def actual_backoff (p : FallbackPolicy) (retry : Nat) (jitter : Rat) : Rat :=
  backoff_ms p retry * (1 + jitter)

/-- One entry of the `execution_log` list built by `execute_with_fallback`;
absent dict keys are `none` / the `skipped` key absent is `skipped := false`. -/
structure LogEntry where
  tool : String
  score : Rat
  skipped : Bool := false
  success : Option Bool := none
  reason : Option String := none
  retry_attempt : Option Nat := none
  error : Option String := none
deriving Repr, DecidableEq

/-- The `{"success": ..., "data"/"error": ...}` dict returned by
`_execute_with_retries`. -/
structure TryOutcome where
  success : Bool
  data : Option String := none
  error : Option String := none
deriving Repr, DecidableEq

/-- The retry loop body of `_execute_with_retries`: `retry` is the current
retry index, `fuel` the number of loop iterations left
(`max_retries + 1 - retry`). Returns the outcome and the log entries the loop
appended. The backoff sleep does not affect the outcome and is not modelled
here (see `actual_backoff` for the slept amount). -/
def run_attempts (t : Tool) (tool_name : String) (score : Rat)
    (max_retries : Nat) : Nat → Nat → TryOutcome × List LogEntry
  | _retry, 0 => ({ success := false, error := some "Max retries exceeded" }, [])
  | retry, fuel + 1 =>
    match t.execute retry with
    | .ok d =>
      ({ success := true, data := some d },
       [{ tool := tool_name, score := score, success := some true,
          retry_attempt := some retry }])
    | .err e =>
      let entry : LogEntry :=
        { tool := tool_name, score := score, success := some false,
          retry_attempt := some retry, error := some e }
      if retry = max_retries then
        ({ success := false, error := some e }, [entry])
      else
        let r := run_attempts t tool_name score max_retries (retry + 1) fuel
        (r.1, entry :: r.2)

/-- `FallbackExecutor._execute_with_retries` (the log is returned rather than
mutated in place). -/
def execute_with_retries (p : FallbackPolicy) (tools : List (String × Tool))
    (tool_name : String) (score : Rat) : TryOutcome × List LogEntry :=
  match assocGet tools tool_name with
  | some t =>
    if t.executable then
      run_attempts t tool_name score p.max_retries 0 (p.max_retries + 1)
    else
      ({ success := false, error := some "Tool not executable" },
       [{ tool := tool_name, score := score, success := some false,
          reason := some "tool_not_executable" }])
  | none =>
    ({ success := false, error := some "Tool not executable" },
     [{ tool := tool_name, score := score, success := some false,
        reason := some "tool_not_executable" }])

/-- The `"execution"` sub-dict of the dict returned by
`execute_with_fallback`; keys missing in a given branch are `none`. -/
structure ExecutionInfo where
  executed : Bool
  tool_used : Option String := none
  tool_score : Option Rat := none
  success : Option Bool := none
  attempt_number : Option Nat := none
  reason : Option String := none
  failed_tools : Option (List String) := none
  skipped_tools : Option (List String) := none
  execution_log : Option (List LogEntry) := none
deriving Repr, DecidableEq

/-- The dict returned by `execute_with_fallback`. -/
structure FallbackResult where
  execution : ExecutionInfo
  results : Option String := none
  note : String
deriving Repr, DecidableEq

/-- `FallbackExecutor._no_tools_result`. -/
def no_tools_result : FallbackResult :=
  { execution := { executed := false, reason := some "No suitable tools found" }
    results := none
    note := "No tools available for execution" }

/-- `FallbackExecutor._all_tools_failed_result`: partitions the log by the
truthiness of each entry's `skipped` key. -/
def all_tools_failed_result (log : List LogEntry) : FallbackResult :=
  { execution :=
      { executed := false
        reason := some "All available tools failed or were skipped"
        failed_tools := some ((log.filter (fun e => !e.skipped)).map (·.tool))
        skipped_tools := some ((log.filter (fun e => e.skipped)).map (·.tool))
        execution_log := some log }
    results := none
    note := "All tools failed - consider degraded mode or manual intervention" }

/-- The success dict built in the body of `execute_with_fallback`. -/
def success_result (tool_name : String) (score : Rat) (attempt_number : Nat)
    (log : List LogEntry) (data : Option String) : FallbackResult :=
  { execution :=
      { executed := true
        tool_used := some tool_name
        tool_score := some score
        success := some true
        attempt_number := some attempt_number
        execution_log := some log }
    results := data
    note := "Task executed successfully with " ++ tool_name }

/-- The log entry recorded for a candidate skipped because its circuit
breaker is open. -/
def skip_entry (tool_name : String) (score : Rat) : LogEntry :=
  { tool := tool_name, score := score, skipped := true,
    reason := some "circuit_breaker_open" }

/-- The candidate loop of `execute_with_fallback`: `i` is the `enumerate`
index, `log` the execution log accumulated so far; the policy's health map is
threaded through circuit checks and success/failure recording. All
`time.time()` calls during the one request are modelled by the single `now`
(the request is "immediate"; sleeps are not modelled). -/
def exec_loop (now : Rat) (tools : List (String × Tool)) :
    FallbackPolicy → List (String × Rat) → Nat → List LogEntry →
    FallbackResult × FallbackPolicy
  | p, [], _i, log => (all_tools_failed_result log, p)
  | p, (tool_name, score) :: rest, i, log =>
    let c := is_circuit_open p now tool_name
    if c.1 then
      exec_loop now tools c.2 rest (i + 1) (log ++ [skip_entry tool_name score])
    else
      let r := execute_with_retries c.2 tools tool_name score
      let log2 := log ++ r.2
      if r.1.success then
        (success_result tool_name score (i + 1) log2 r.1.data,
         record_success c.2 now tool_name)
      else
        exec_loop now tools (record_failure c.2 now tool_name) rest (i + 1) log2

/-- `FallbackExecutor.execute_with_fallback`. -/
def execute_with_fallback (p : FallbackPolicy) (now : Rat)
    (candidates : List (String × Rat)) (tools : List (String × Tool)) :
    FallbackResult × FallbackPolicy :=
  if candidates.isEmpty then (no_tools_result, p)
  else exec_loop now tools p candidates 0 []

end Fallback

namespace Engine

/-- The policy object consumed by `core/execution_engine.py` through its
`should_retry` / `record_success` / `record_failure` methods: `should_retry`
is its (pure) retry decision, `failures` and `successes` record the calls made
to the two recorders, in order. -/
structure EnginePolicy where
  should_retry : String → Nat → String → Bool × Rat
  failures : List (String × String) := []
  successes : List String := []

/-- `policy.record_failure(tool_name, error)`. -/
def record_failure (p : EnginePolicy) (tool_name error : String) :
    EnginePolicy :=
  { p with failures := p.failures ++ [(tool_name, error)] }

/-- `policy.record_success(tool_name)`. -/
def record_success (p : EnginePolicy) (tool_name : String) : EnginePolicy :=
  { p with successes := p.successes ++ [tool_name] }

/-- The `"execution"` sub-dict of the engine's result dicts. -/
structure EngineExec where
  executed : Bool
  tool_used : Option String := none
  tool_score : Option Rat := none
  success : Option Bool := none
  attempts : Option Nat := none
  reason : Option String := none
  primary_failed : Option String := none
  fallback_used : Option Bool := none
  strategy_used : Option String := none
deriving Repr, DecidableEq

/-- A result dict of `try_tool_with_retries` / `execute_with_policy`.
`success` models the truthiness of the top-level `"success"` key (absent keys
are falsy). The `selection_result` dict spread into the Python return value
carries through unchanged, never touches the `"execution"`/`"success"` keys,
and is not modelled. -/
structure EngineResult where
  success : Bool
  execution : EngineExec
  results : Option String := none
  note : Option String := none
deriving Repr, DecidableEq

/-- The success dict built inside `try_tool_with_retries` at attempt index
`attempt` (zero-based; the dict reports `attempts = attempt + 1`). -/
def succ_result (tool_name : String) (score : Rat) (attempt : Nat)
    (d : String) : EngineResult :=
  { success := true
    execution :=
      { executed := true
        tool_used := some tool_name
        tool_score := some score
        success := some true
        attempts := some (attempt + 1) }
    results := some d
    note := some ("Task executed with " ++ tool_name ++
      (if 0 < attempt then " (attempt " ++ toString (attempt + 1) ++ ")" else "")) }

/-- The failure dict returned after the retry loop of
`try_tool_with_retries` exits. -/
def failed_result (tool_name : String) (attempts : Nat) (last_error : String) :
    EngineResult :=
  { success := false
    execution :=
      { executed := false
        reason := some (tool_name ++ " failed after " ++ toString attempts ++
          " attempts: " ++ last_error)
        attempts := some attempts } }

/-- The early-return dict for a missing / non-executable tool. -/
def not_executable_result (tool_name : String) : EngineResult :=
  { success := false
    execution :=
      { executed := false
        reason := some ("Tool " ++ tool_name ++ " not executable") } }

/-- The `while attempt < 3` loop of `try_tool_with_retries`. `fuel` bounds the
iterations (3 suffices since `attempt` grows each round). Besides the result
and the updated policy it returns the list of attempt indices at which
`tool.execute` was actually invoked. -/
def try_loop (t : Tool) (tool_name : String) (score : Rat) :
    EnginePolicy → Nat → String → Nat →
    EngineResult × EnginePolicy × List Nat
  | p, attempt, last_error, 0 =>
    (failed_result tool_name attempt last_error,
     record_failure p tool_name last_error, [])
  | p, attempt, last_error, fuel + 1 =>
    if attempt < 3 then
      match t.execute attempt with
      | .ok d =>
        (succ_result tool_name score attempt d,
         record_success p tool_name, [attempt])
      | .err e =>
        let sr := p.should_retry tool_name (attempt + 1) e
        if sr.1 ∧ attempt + 1 < 3 then
          let r := try_loop t tool_name score p (attempt + 1) e fuel
          (r.1, r.2.1, attempt :: r.2.2)
        else
          (failed_result tool_name (attempt + 1) e,
           record_failure p tool_name e, [attempt])
    else
      (failed_result tool_name attempt last_error,
       record_failure p tool_name last_error, [])

/-- `try_tool_with_retries` from `core/execution_engine.py`. -/
def try_tool_with_retries (tools : List (String × Tool)) (tool_name : String)
    (score : Rat) (p : EnginePolicy) :
    EngineResult × EnginePolicy × List Nat :=
  match assocGet tools tool_name with
  | some t =>
    if t.executable then try_loop t tool_name score p 0 "" 3
    else (not_executable_result tool_name, p, [])
  | none => (not_executable_result tool_name, p, [])

/-- The `strategy` dict handed to `execute_with_policy`. -/
structure Strategy where
  primary : String × Rat
  fallback : Option (String × Rat)
  strategy : String
deriving Repr, DecidableEq

/-- The in-place mutation of the successful fallback result:
`execution["primary_failed"] = primary; execution["fallback_used"] = True`. -/
def tag_fallback (primary_name : String) (r : EngineResult) : EngineResult :=
  { r with execution :=
      { r.execution with
        primary_failed := some primary_name
        fallback_used := some true } }

/-- The all-failed dict built at the end of `execute_with_policy`. -/
def all_failed_result (strategy : Strategy) (r1 : EngineResult) :
    EngineResult :=
  { success := false
    execution :=
      { executed := false
        reason := some ("All available tools failed. Primary: " ++
          (r1.execution.reason.getD ""))
        strategy_used := some strategy.strategy } }

/-- `execute_with_policy` from `core/execution_engine.py`; `tools?` is `none`
when `list_tools_func is None`. -/
def execute_with_policy (tools? : Option (List (String × Tool)))
    (strategy : Strategy) (p : EnginePolicy) : EngineResult × EnginePolicy :=
  match tools? with
  | none =>
    ({ success := false
       execution := { executed := false, reason := some "No tools available" } },
     p)
  | some tools =>
    let r1 := try_tool_with_retries tools strategy.primary.1
      strategy.primary.2 p
    if r1.1.success then (r1.1, r1.2.1)
    else
      match strategy.fallback with
      | some fb =>
        let r2 := try_tool_with_retries tools fb.1 fb.2 r1.2.1
        if r2.1.success then
          (tag_fallback strategy.primary.1 r2.1, r2.2.1)
        else
          (all_failed_result strategy r1.1,
           record_failure r2.2.1 strategy.primary.1
             (r1.1.execution.reason.getD ""))
      | none =>
        (all_failed_result strategy r1.1,
         record_failure r1.2.1 strategy.primary.1
           (r1.1.execution.reason.getD ""))

/-- The number of `record_failure` calls the policy has received for a given
tool name. -/
def fail_count (p : EnginePolicy) (tool_name : String) : Nat :=
  (p.failures.filter (fun kv => kv.1 == tool_name)).length

end Engine

namespace Evidence

/-- A digest of one string, as mixed into CPython's tuple hash. CPython's
`hash` on `str` is a siphash keyed by a per-process secret (hash
randomization, `PYTHONHASHSEED`); the model keeps that per-process key as the
explicit `seed` argument. The exact mixing below is not siphash — what the
theorems use is only that the digest is a deterministic function of
`(seed, s)` that does depend on the seed. -/
def strHash (seed : Nat) (s : String) : Nat :=
  s.data.foldl (fun a c => (a * 1000003 + c.toNat + 1) % 2 ^ 61) (seed % 2 ^ 61)

/-- Model of the CPython expression `hash((domain, q, url))`: tuple hashing
combines the per-process-seeded string digests. -/
def pyHash (seed : Nat) (domain q url : String) : Nat :=
  ((strHash seed domain * 1000003 + strHash seed q) * 1000003
    + strHash seed url) % 2 ^ 61

/-- Lowercase hex rendering of a natural number (Python `format(n, "x")`). -/
def toHex (n : Nat) : String :=
  ⟨Nat.toDigits 16 n⟩

/-- The id assigned in `collect_structured_evidence`:
`f"ev_{hash((domain, q, url)) & 0xfffffff:x}"`. The mask `0xfffffff` keeps
the low 28 bits. -/
def evidence_id (seed : Nat) (domain q url : String) : String :=
  "ev_" ++ toHex (pyHash seed domain q url % 2 ^ 28)

/-- One evidence item dict built by `collect_structured_evidence` (the fields
the collector fills in). -/
structure EvidenceItem where
  evidence_id : String
  domain : String
  url : String
  search_url : String
  title : String
  snippet : String
  query_used : String
  retrieved_at : String
deriving Repr, DecidableEq

/-- The collector's configuration view. `GUIDELINE_SOURCES` is the ordered
domain → description dict. `RESULT_CAP` and `build_queries` are referenced by
`evidence_collector.py` but their definitions are absent from the source tree
(only callers and tests exist); modelled from the spec: `build_queries`
produces "a small set of query variants (domain-qualified queries)" for
`(topic, domain, mode)` and `RESULT_CAP` is "a global result cap" — both kept
abstract as plain data here, which the collector only iterates / compares
against. -/
structure CollectorConfig where
  GUIDELINE_SOURCES : List (String × String)
  GLOBAL_RETRIEVAL_BUDGET_SECS : Rat := 8
  PER_DOMAIN_SOFT_BUDGET_SECS : Rat := 3/2
  RESULT_CAP : Nat
  build_queries : String → String → String → List String

/-- Ambient context of one `collect_structured_evidence` call: `clock i` is
the value returned by the `i`-th call to `time.time()`; `searcher` is
`self._search_tool.run` (an `error` is a raised exception); `seed` is the
process hash seed; `select_curated_url` is the pure helper
`_select_curated_url domain topic query`; `now_iso` the
`datetime.utcnow().isoformat()` stamp. The cost tracker only records spend
and does not influence the result, so it is not modelled. -/
structure CollectorCtx where
  cfg : CollectorConfig
  clock : Nat → Rat
  searcher : String → Except String String
  seed : Nat
  select_curated_url : String → String → String → Option String
  now_iso : String

/-- The item dict built for one successful query `q` in domain `domain`. -/
def mk_item (ctx : CollectorCtx) (topic domain q raw : String) : EvidenceItem :=
  let url := (ctx.select_curated_url domain topic q).getD ("https://" ++ domain)
  { evidence_id := evidence_id ctx.seed domain q url
    domain := domain
    url := url
    search_url := "https://duckduckgo.com/?q=" ++ q.replace " " "+"
    title := domain ++ " — result"
    snippet := raw.take 800
    query_used := q
    retrieved_at := ctx.now_iso }

/-- The `for q in queries` loop of `collect_structured_evidence` for one
domain. `g` is the global deadline, `dd` the domain deadline, `τ` the index of
the next `time.time()` call; both deadline checks consume one clock tick each
(the second is only reached if the first passes, mirroring `or`
short-circuiting up to the consumed ticks). Returns the items accumulated for
the domain and the next clock index. A query whose search raises is skipped
(`except Exception: continue`), as is a result shorter than 20 characters. -/
def collect_queries (ctx : CollectorCtx) (topic domain : String) (g dd : Rat)
    (max_per_source : Nat) :
    List String → Nat → List EvidenceItem → List EvidenceItem × Nat
  | [], τ, items => (items, τ)
  | q :: qs, τ, items =>
    if g < ctx.clock τ then (items, τ + 1)
    else if dd < ctx.clock (τ + 1) then (items, τ + 2)
    else
      match ctx.searcher q with
      | .error _ => collect_queries ctx topic domain g dd max_per_source qs (τ + 2) items
      | .ok raw =>
        if raw.length < 20 then
          collect_queries ctx topic domain g dd max_per_source qs (τ + 2) items
        else
          let items' := items ++ [mk_item ctx topic domain q raw]
          if max_per_source ≤ items'.length then (items', τ + 2)
          else collect_queries ctx topic domain g dd max_per_source qs (τ + 2) items'

/-- The `for domain in GUIDELINE_SOURCES` loop of
`collect_structured_evidence`. -/
def collect_domains (ctx : CollectorCtx) (topic mode : String) (g : Rat)
    (max_per_source : Nat) :
    List (String × String) → Nat → List EvidenceItem → List String →
    List EvidenceItem × List String
  | [], _τ, evidence, sources_covered => (evidence, sources_covered)
  | (domain, _desc) :: rest, τ, evidence, sources_covered =>
    if g < ctx.clock τ then (evidence, sources_covered)
    else
      let queries := ctx.cfg.build_queries topic domain mode
      let dd := ctx.clock (τ + 1) + ctx.cfg.PER_DOMAIN_SOFT_BUDGET_SECS
      let r := collect_queries ctx topic domain g dd max_per_source
        queries (τ + 2) []
      let evidence' := if r.1.isEmpty then evidence else evidence ++ r.1
      let sources' :=
        if r.1.isEmpty then sources_covered else sources_covered ++ [domain]
      if ctx.cfg.RESULT_CAP ≤ evidence'.length then (evidence', sources')
      else collect_domains ctx topic mode g max_per_source rest r.2
        evidence' sources'

/-- `EvidenceCollector.collect_structured_evidence`: clock call 0 is
`start_time`, the global deadline is `start_time + GLOBAL_RETRIEVAL_BUDGET_SECS`. -/
def collect_structured_evidence (ctx : CollectorCtx) (topic mode : String)
    (max_per_source : Nat) : List EvidenceItem × List String :=
  let g := ctx.clock 0 + ctx.cfg.GLOBAL_RETRIEVAL_BUDGET_SECS
  collect_domains ctx topic mode g max_per_source ctx.cfg.GUIDELINE_SOURCES
    1 [] []

end Evidence

namespace Cache

/-- The caching knobs of `agent-mentor-guidelines-test/src/config.py`.
Timestamps and the TTL are both measured in hours. -/
structure Config where
  ENABLE_CACHING : Bool := true
  CACHE_TTL_HOURS : Rat := 24
deriving Repr, DecidableEq

/-- One stored cache entry: `{response, timestamp, query}`. -/
structure CacheEntry (V : Type) where
  response : V
  timestamp : Rat
  query : String
deriving Repr, DecidableEq

/-- `ResponseCache` of `agent-mentor-guidelines-test/src/cache.py`: the
in-memory `cache_data` dict (the JSON file mirrors it and is not modelled).
`V` is the type of the cached response dicts. -/
structure ResponseCache (V : Type) where
  config : Config
  cache_data : List (String × CacheEntry V)
deriving Repr, DecidableEq

/-- `ResponseCache._get_cache_key`: `md5(query.lower().strip())`. The MD5 hex
digest is modelled as the normalized query itself: the claims checked here
depend only on the key being a deterministic function of the normalized
query. -/
def cache_key (query : String) : String :=
  query.trim.toLower

/-- `ResponseCache.get` at wall-clock time `now` (hours): a hit within the
TTL, a miss otherwise; an expired entry is deleted on the read. -/
def get {V : Type} (c : ResponseCache V) (now : Rat) (query : String) :
    Option V × ResponseCache V :=
  if !c.config.ENABLE_CACHING then (none, c)
  else
    let key := cache_key query
    match assocGet c.cache_data key with
    | none => (none, c)
    | some e =>
      if now - e.timestamp < c.config.CACHE_TTL_HOURS then (some e.response, c)
      else (none, { c with cache_data := assocErase c.cache_data key })

/-- `ResponseCache.set` at wall-clock time `now` (hours). -/
def set {V : Type} (c : ResponseCache V) (now : Rat) (query : String)
    (response : V) : ResponseCache V :=
  if !c.config.ENABLE_CACHING then c
  else
    let entry : CacheEntry V :=
      { response := response, timestamp := now, query := query }
    { c with cache_data := assocSet c.cache_data (cache_key query) entry }

end Cache

/-! ## Helper lemmas -/

theorem assocGet_assocSet_self {α : Type} (l : List (String × α)) (k : String)
    (v : α) : assocGet (assocSet l k v) k = some v := by
  induction l with
  | nil => simp [assocSet, assocGet]
  | cons kv t ih =>
    by_cases h : (kv.1 == k) = true
    · simp [assocSet, assocGet, h]
    · simp only [assocSet, h, if_neg, Bool.false_eq_true, not_false_iff]
      simpa [assocGet, List.find?_cons, h] using ih

theorem assocGet_assocErase_self {α : Type} (l : List (String × α))
    (k : String) : assocGet (assocErase l k) k = none := by
  induction l with
  | nil => simp [assocErase, assocGet]
  | cons kv t ih =>
    by_cases h : (kv.1 == k) = true
    · simpa [assocErase, List.filter_cons, h] using ih
    · simp only [assocErase, List.filter_cons, h, Bool.not_false, if_true]
      simp only [assocGet, List.find?_cons, h] at ih ⊢
      exact ih

theorem assocGet_map_snd {α β : Type} (f : α → β) (l : List (String × α))
    (k : String) :
    assocGet (l.map (fun kv => (kv.1, f kv.2))) k = (assocGet l k).map f := by
  induction l with
  | nil => simp [assocGet]
  | cons kv t ih =>
    by_cases h : (kv.1 == k) = true
    · simp [assocGet, List.find?_cons, h]
    · simpa [assocGet, List.find?_cons, h] using ih

/-! ## C6 — is the shouldTry check side-effect-free? -/

/-- The half-open update `_is_circuit_open` writes when the recovery deadline
has passed: state becomes Degraded, the deadline is cleared. -/
def halfOpen (h : Fallback.ToolHealth) : Fallback.ToolHealth :=
  { h with state := Fallback.ToolState.degraded, circuit_open_until := none }

/-- A policy in which source "X" has an open circuit whose recovery deadline
(5) is already past at time 10. -/
def sideEffectPolicy : Fallback.FallbackPolicy :=
  { health_tracking :=
      [("X", { name := "X", state := .circuitOpen,
               circuit_open_until := some 5 })] }

/-- C6 counterexample: the claim "for every policy state, source name and
current time, the shouldTry check (`_is_circuit_open`) leaves every
SourceHealth record unchanged" is false: at time 10 the check rewrites source
"X" (CircuitOpen, deadline 5) to Degraded and clears its deadline. -/
theorem C6_counterexample :
    (Fallback.is_circuit_open sideEffectPolicy 10 "X").2 ≠ sideEffectPolicy := by
  intro he
  have hstate :
      (assocGet (Fallback.is_circuit_open sideEffectPolicy 10 "X").2.health_tracking
          "X").map Fallback.ToolHealth.state =
        some Fallback.ToolState.degraded := rfl
  rw [he] at hstate
  have hstate' :
      (assocGet sideEffectPolicy.health_tracking "X").map
          Fallback.ToolHealth.state =
        some Fallback.ToolState.circuitOpen := rfl
  rw [hstate'] at hstate
  exact absurd (Option.some.inj hstate) (by decide)

/-- C6 (amended): `_is_circuit_open` never changes failure/success counters
and never touches another source's record: it either returns the policy
exactly as it was, or — precisely when the named source is CircuitOpen with a
nonzero recovery deadline strictly in the past — it flips just that source's
state to Degraded and clears its deadline (the half-open transition), in
which case it reports the circuit as no longer open. -/
theorem C6_should_try_frame (p : Fallback.FallbackPolicy) (now : Rat)
    (tool_name : String) :
    (Fallback.is_circuit_open p now tool_name).2 = p ∨
    ∃ h : Fallback.ToolHealth, ∃ u : Rat,
      assocGet p.health_tracking tool_name = some h ∧
      h.state = Fallback.ToolState.circuitOpen ∧
      h.circuit_open_until = some u ∧ u ≠ 0 ∧ u < now ∧
      (Fallback.is_circuit_open p now tool_name).1 = false ∧
      (Fallback.is_circuit_open p now tool_name).2 =
        { p with health_tracking :=
            assocSet p.health_tracking tool_name (halfOpen h) } := by
  cases hh : assocGet p.health_tracking tool_name with
  | none => left; simp [Fallback.is_circuit_open, hh]
  | some h =>
    by_cases hs : h.state = Fallback.ToolState.circuitOpen
    · cases hu : h.circuit_open_until with
      | none => left; simp [Fallback.is_circuit_open, hh, hs, hu]
      | some u =>
        by_cases hc : u ≠ 0 ∧ u < now
        · right
          refine ⟨h, u, rfl, hs, hu, hc.1, hc.2, ?_, ?_⟩ <;>
            simp [Fallback.is_circuit_open, hh, hs, hu, hc, halfOpen]
        · left; simp [Fallback.is_circuit_open, hh, hs, hu, hc]
    · left; simp [Fallback.is_circuit_open, hh, hs]

/-! ## C2 — circuit recovery timing -/

/-- A policy whose source "X" has an open circuit until time 5 exactly. -/
def boundaryPolicy : Fallback.FallbackPolicy :=
  { health_tracking :=
      [("X", { name := "X", state := .circuitOpen,
               circuit_open_until := some 5 })] }

/-- C2 counterexample: at `now = circuitOpenUntil` (both 5) the claim says the
check already transitions the source to Degraded and allows a trial call; the
code compares with strict `>`, so it still reports the circuit open and
leaves the record untouched. -/
theorem C2_counterexample :
    Fallback.is_circuit_open boundaryPolicy 5 "X" = (true, boundaryPolicy) :=
  rfl

/-- C2 (amended): for a source in CircuitOpen with a positive recovery
deadline `u`: while `now ≤ u` the check reports the circuit open (the caller
skips the source) and changes nothing; as soon as `now > u` (strictly) the
check transitions the source to Degraded, clears `circuit_open_until`, and
reports the circuit as no longer open, so one trial call is allowed. -/
theorem C2_circuit_recovery (p : Fallback.FallbackPolicy)
    (tool_name : String) (now u : Rat) (h : Fallback.ToolHealth)
    (hh : assocGet p.health_tracking tool_name = some h)
    (hst : h.state = Fallback.ToolState.circuitOpen)
    (hu : h.circuit_open_until = some u) (hupos : 0 < u) :
    (now ≤ u → Fallback.is_circuit_open p now tool_name = (true, p)) ∧
    (u < now →
      (Fallback.is_circuit_open p now tool_name).1 = false ∧
      assocGet (Fallback.is_circuit_open p now tool_name).2.health_tracking
          tool_name =
        some (halfOpen h)) := by
  constructor
  · intro hle
    have hcond : ¬(u ≠ 0 ∧ u < now) := fun hc => absurd hc.2 (not_lt.mpr hle)
    simp [Fallback.is_circuit_open, hh, hst, hu, hcond]
  · intro hlt
    have hne : u ≠ 0 := ne_of_gt hupos
    simp [Fallback.is_circuit_open, hh, hst, hu, hne, hlt, halfOpen,
      assocGet_assocSet_self]

/-- C2 witness: the amended theorem applied to the concrete boundary policy
at time 4 < 5. -/
theorem C2_circuit_recovery_witness :
    Fallback.is_circuit_open boundaryPolicy 4 "X" = (true, boundaryPolicy) :=
  (C2_circuit_recovery boundaryPolicy "X" 4 5
    { name := "X", state := .circuitOpen, circuit_open_until := some 5 }
    rfl rfl rfl (by decide)).1 (by decide)

/-! ## C5 — backoff formula and bounds -/

/-- Default fallback configuration, with the retry ceiling raised to 5 so
that a sixth total attempt exists (`max_retries` is plain configuration). -/
def clampPolicy : Fallback.FallbackPolicy := { max_retries := 5 }

/-- C5 counterexample: with base 1000 ms, cap 10000 ms, jitter factor 0.1 and
six total attempts allowed, the retry before attempt n = 6 (retry index 5)
may draw jitter +0.1 (a legal draw) and then sleeps
min(1000·2⁴, 10000)·1.1 = 11000 ms, which lies outside the claimed interval
[1000·2⁴·(1−0.1), 10000] = [14400, 10000] on both ends. -/
theorem C5_counterexample :
    Fallback.actual_backoff clampPolicy 5 (1/10) = 11000 ∧
    ¬(clampPolicy.base_backoff_ms * 2 ^ (6 - 2) *
        (1 - clampPolicy.jitter_factor) ≤
          Fallback.actual_backoff clampPolicy 5 (1/10) ∧
      Fallback.actual_backoff clampPolicy 5 (1/10) ≤
        clampPolicy.max_backoff_ms) := by
  constructor
  · norm_num [Fallback.actual_backoff, Fallback.backoff_ms, clampPolicy]
  · intro hcl
    have := hcl.2
    rw [show Fallback.actual_backoff clampPolicy 5 (1/10) = 11000 by
      norm_num [Fallback.actual_backoff, Fallback.backoff_ms, clampPolicy]] at this
    norm_num [clampPolicy] at this

/-- C5 (amended): for the retry before total attempt `n ≥ 2` and any jitter
draw with `|jitter| ≤ jitter_factor ≤ 1`, the slept delay equals
`min(base·2^(n−2), max)·(1 + jitter)`; it lies in the interval
`[min(base·2^(n−2), max)·(1 − jitter_factor), max·(1 + jitter_factor)]`, and
for a fixed draw it is monotonically non-decreasing in `n`. -/
theorem C5_backoff_bounds (p : Fallback.FallbackPolicy) (n : Nat)
    (jitter : Rat) (hb : 0 ≤ p.base_backoff_ms) (hM : 0 ≤ p.max_backoff_ms)
    (hn : 2 ≤ n) (hj : |jitter| ≤ p.jitter_factor)
    (hjf : p.jitter_factor ≤ 1) :
    Fallback.actual_backoff p (n - 1) jitter =
      min (p.base_backoff_ms * 2 ^ (n - 2)) p.max_backoff_ms * (1 + jitter) ∧
    min (p.base_backoff_ms * 2 ^ (n - 2)) p.max_backoff_ms *
        (1 - p.jitter_factor) ≤
      Fallback.actual_backoff p (n - 1) jitter ∧
    Fallback.actual_backoff p (n - 1) jitter ≤
      p.max_backoff_ms * (1 + p.jitter_factor) ∧
    ∀ m : Nat, n ≤ m →
      Fallback.actual_backoff p (n - 1) jitter ≤
        Fallback.actual_backoff p (m - 1) jitter := by
  obtain ⟨hjl, hjr⟩ := abs_le.mp hj
  have hsub : n - 1 - 1 = n - 2 := by omega
  have hBpos : (0 : Rat) ≤ min (p.base_backoff_ms * 2 ^ (n - 2)) p.max_backoff_ms :=
    le_min (mul_nonneg hb (pow_nonneg (by norm_num) _)) hM
  have h1j : (0 : Rat) ≤ 1 + jitter := by linarith
  refine ⟨?_, ?_, ?_, ?_⟩
  · rw [Fallback.actual_backoff, Fallback.backoff_ms, hsub]
  · rw [Fallback.actual_backoff, Fallback.backoff_ms, hsub]
    exact mul_le_mul_of_nonneg_left (by linarith) hBpos
  · rw [Fallback.actual_backoff, Fallback.backoff_ms, hsub]
    exact mul_le_mul (min_le_right _ _) (by linarith) h1j hM
  · intro m hm
    rw [Fallback.actual_backoff, Fallback.actual_backoff,
      Fallback.backoff_ms, Fallback.backoff_ms, hsub,
      show m - 1 - 1 = m - 2 from by omega]
    refine mul_le_mul_of_nonneg_right (min_le_min ?_ le_rfl) h1j
    exact mul_le_mul_of_nonneg_left
      (pow_le_pow_right₀ (by norm_num) (by omega)) hb

/-- Default fallback configuration (base 1000 ms, cap 10000 ms, jitter
factor 0.1). -/
def defaultFallbackPolicy : Fallback.FallbackPolicy := {}

/-- C5 witness: the amended bounds applied at the default configuration,
attempt n = 2, jitter draw +0.05: delay 1000·1.05 = 1050 ms, and the lower
bound from the theorem holds there. -/
theorem C5_backoff_bounds_witness :
    Fallback.actual_backoff defaultFallbackPolicy 1 (1/20) = 1050 ∧
    min (defaultFallbackPolicy.base_backoff_ms * 2 ^ (2 - 2))
        defaultFallbackPolicy.max_backoff_ms *
        (1 - defaultFallbackPolicy.jitter_factor) ≤
      Fallback.actual_backoff defaultFallbackPolicy 1 (1/20) :=
  ⟨by norm_num [Fallback.actual_backoff, Fallback.backoff_ms,
      defaultFallbackPolicy],
   (C5_backoff_bounds defaultFallbackPolicy 2 (1/20)
      (by norm_num [defaultFallbackPolicy])
      (by norm_num [defaultFallbackPolicy]) (by norm_num)
      (by rw [abs_of_nonneg (by norm_num)]
          norm_num [defaultFallbackPolicy])
      (by norm_num [defaultFallbackPolicy])).2.1⟩

/-! ## C7 — evidence id stability across processes -/

/-- C7: the assigned evidence id is not a function of
`(domain, query, url)` alone: it also depends on the per-process hash seed
(CPython hash randomization), so two runs in separate processes can assign
different ids to the same triple. Seeds 0 and 1 already disagree on a
concrete triple. -/
theorem C7_id_depends_on_process_seed :
    Evidence.evidence_id 0 "gwern.net" "research methodology"
        "https://gwern.net" ≠
      Evidence.evidence_id 1 "gwern.net" "research methodology"
        "https://gwern.net" := by
  set_option maxRecDepth 10000 in decide

/-! ## C9 — cache round trip and TTL expiry -/

/-- C9: with caching enabled, after `set(q, v)` at time `t0` a `get(q)` at
time `t1` returns `v` whenever less than `CACHE_TTL_HOURS` have elapsed;
once at least the TTL has elapsed the same read misses (`none`) and lazily
removes the expired entry from the store. -/
theorem C9_cache_ttl {V : Type} (c : Cache.ResponseCache V) (t0 t1 : Rat)
    (q : String) (v : V) (hen : c.config.ENABLE_CACHING = true) :
    (t1 - t0 < c.config.CACHE_TTL_HOURS →
      (Cache.get (Cache.set c t0 q v) t1 q).1 = some v) ∧
    (c.config.CACHE_TTL_HOURS ≤ t1 - t0 →
      (Cache.get (Cache.set c t0 q v) t1 q).1 = none ∧
      assocGet (Cache.get (Cache.set c t0 q v) t1 q).2.cache_data
        (Cache.cache_key q) = none) := by
  set e : Cache.CacheEntry V := { response := v, timestamp := t0, query := q }
    with he
  have hset : Cache.set c t0 q v =
      { c with cache_data := assocSet c.cache_data (Cache.cache_key q) e } := by
    simp [Cache.set, hen, he]
  constructor
  · intro hlt
    simp [Cache.get, hset, hen, assocGet_assocSet_self, hlt]
  · intro hge
    have hnot : ¬(t1 - t0 < c.config.CACHE_TTL_HOURS) := not_lt.mpr hge
    constructor
    · simp [Cache.get, hset, hen, assocGet_assocSet_self, hnot]
    · simp [Cache.get, hset, hen, assocGet_assocSet_self, hnot,
        assocGet_assocErase_self]

/-- An empty enabled cache holding `Nat` responses. -/
def emptyCacheNat : Cache.ResponseCache Nat := { config := {}, cache_data := [] }

/-- C9 witness: the theorem applied to the empty cache, `set` at hour 0 and
`get` at hour 23 (within the default 24 h TTL) of the same query. -/
theorem C9_cache_ttl_witness :
    (Cache.get (Cache.set emptyCacheNat 0 "q" 7) 23 "q").1 = some 7 :=
  (C9_cache_ttl emptyCacheNat 0 23 "q" 7 rfl).1 (by norm_num [emptyCacheNat])

/-! ## C1 — opening the circuit and skipping the source -/

theorem is_circuit_open_true (p : Fallback.FallbackPolicy) (now : Rat)
    (tool_name : String) (h : Fallback.ToolHealth) (u : Rat)
    (hh : assocGet p.health_tracking tool_name = some h)
    (hst : h.state = Fallback.ToolState.circuitOpen)
    (hu : h.circuit_open_until = some u) (hcond : ¬(u ≠ 0 ∧ u < now)) :
    Fallback.is_circuit_open p now tool_name = (true, p) := by
  simp [Fallback.is_circuit_open, hh, hst, hu, hcond]

/-- The health record `_record_failure` stores when the failure threshold is
reached: counters bumped, circuit open until `now + circuit_recovery_time_s`. -/
def openedRecord (p : Fallback.FallbackPolicy) (now : Rat)
    (tool_name : String) : Fallback.ToolHealth :=
  let h0 := (assocGet p.health_tracking tool_name).getD { name := tool_name }
  { h0 with
    failure_count := h0.failure_count + 1
    consecutive_failures := h0.consecutive_failures + 1
    last_failure_time := some now
    state := .circuitOpen
    circuit_open_until := some (now + p.circuit_recovery_time_s) }

theorem record_failure_opens (p : Fallback.FallbackPolicy) (now : Rat)
    (tool_name : String)
    (hthr : p.circuit_failure_threshold ≤
      ((assocGet p.health_tracking tool_name).getD
          { name := tool_name }).consecutive_failures + 1) :
    Fallback.record_failure p now tool_name =
      { p with health_tracking :=
          assocSet p.health_tracking tool_name (openedRecord p now tool_name) } := by
  simp only [Fallback.record_failure, openedRecord]
  rw [if_pos (by simpa using hthr)]

/-- C1: when `_record_failure` lifts a source's consecutive-failure count to
at least `circuit_failure_threshold`, the source's health record becomes
CircuitOpen with `circuit_open_until = now + circuit_recovery_time_s`; the
health summary then reports state "circuit_open" for it, and a request issued
immediately afterwards (same `now`) skips the source with reason
"circuit_breaker_open" instead of attempting it. -/
theorem C1_circuit_opens_and_skips (p : Fallback.FallbackPolicy)
    (tool_name : String) (now score : Rat) (tools : List (String × Tool))
    (hrec : 0 < p.circuit_recovery_time_s)
    (hthr : p.circuit_failure_threshold ≤
      ((assocGet p.health_tracking tool_name).getD
          { name := tool_name }).consecutive_failures + 1) :
    ∃ h : Fallback.ToolHealth,
      assocGet (Fallback.record_failure p now tool_name).health_tracking
          tool_name = some h ∧
      h.state = Fallback.ToolState.circuitOpen ∧
      h.circuit_open_until = some (now + p.circuit_recovery_time_s) ∧
      (assocGet
          (Fallback.get_tool_health_summary
            (Fallback.record_failure p now tool_name)) tool_name).map
          Fallback.HealthSummary.state = some "circuit_open" ∧
      Fallback.execute_with_fallback (Fallback.record_failure p now tool_name)
          now [(tool_name, score)] tools =
        (Fallback.all_tools_failed_result [Fallback.skip_entry tool_name score],
         Fallback.record_failure p now tool_name) := by
  have hrf := record_failure_opens p now tool_name hthr
  have hget :
      assocGet (Fallback.record_failure p now tool_name).health_tracking
          tool_name = some (openedRecord p now tool_name) := by
    rw [hrf]
    exact assocGet_assocSet_self ..
  refine ⟨openedRecord p now tool_name, hget, rfl, rfl, ?_, ?_⟩
  · have hsm :
        Fallback.get_tool_health_summary
            (Fallback.record_failure p now tool_name) =
          (Fallback.record_failure p now tool_name).health_tracking.map
            (fun kv => (kv.1, Fallback.summarize kv.2)) := rfl
    rw [hsm, assocGet_map_snd, hget]
    rfl
  · have hopen :
        Fallback.is_circuit_open (Fallback.record_failure p now tool_name)
            now tool_name =
          (true, Fallback.record_failure p now tool_name) := by
      refine is_circuit_open_true _ _ _ _ (now + p.circuit_recovery_time_s)
        hget rfl rfl ?_
      rintro ⟨-, hlt⟩
      exact absurd hlt (by linarith)
    simp [Fallback.execute_with_fallback, Fallback.exec_loop, hopen]

/-- A policy in which source "X" already has two consecutive failures, one
short of the default threshold of three. -/
def preOpenPolicy : Fallback.FallbackPolicy :=
  { health_tracking := [("X", { name := "X", consecutive_failures := 2 })] }

/-- C1 witness: the theorem applied at the concrete two-failure policy,
time 100, a single candidate "X", and no tools. -/
theorem C1_circuit_opens_and_skips_witness :
    ∃ h : Fallback.ToolHealth,
      assocGet (Fallback.record_failure preOpenPolicy 100 "X").health_tracking
          "X" = some h ∧
      h.state = Fallback.ToolState.circuitOpen ∧
      h.circuit_open_until = some (100 + preOpenPolicy.circuit_recovery_time_s) ∧
      (assocGet
          (Fallback.get_tool_health_summary
            (Fallback.record_failure preOpenPolicy 100 "X")) "X").map
          Fallback.HealthSummary.state = some "circuit_open" ∧
      Fallback.execute_with_fallback (Fallback.record_failure preOpenPolicy 100 "X")
          100 [("X", 5)] [] =
        (Fallback.all_tools_failed_result [Fallback.skip_entry "X" 5],
         Fallback.record_failure preOpenPolicy 100 "X") :=
  C1_circuit_opens_and_skips preOpenPolicy "X" 100 5 [] (by decide) (by decide)

/-! ## C3 — the executor is total and reports failures -/

theorem run_attempts_not_skipped (t : Tool) (n : String) (s : Rat)
    (mr : Nat) : ∀ (fuel retry : Nat) (e : Fallback.LogEntry),
    e ∈ (Fallback.run_attempts t n s mr retry fuel).2 → e.skipped = false := by
  intro fuel
  induction fuel with
  | zero => intro retry e he; simp [Fallback.run_attempts] at he
  | succ f ihf =>
    intro retry e he
    cases hx : t.execute retry with
    | ok d =>
      simp [Fallback.run_attempts, hx] at he
      subst he; rfl
    | err m =>
      by_cases hr : retry = mr
      · subst hr
        simp [Fallback.run_attempts, hx] at he
        subst he; rfl
      · simp [Fallback.run_attempts, hx, hr] at he
        rcases he with he | he
        · subst he; rfl
        · exact ihf (retry + 1) e he

theorem execute_with_retries_not_skipped (p : Fallback.FallbackPolicy)
    (tools : List (String × Tool)) (tool_name : String) (score : Rat) :
    ∀ e ∈ (Fallback.execute_with_retries p tools tool_name score).2,
      e.skipped = false := by
  intro e he
  cases hx : assocGet tools tool_name with
  | none =>
    simp [Fallback.execute_with_retries, hx] at he
    subst he; rfl
  | some t =>
    by_cases hex : t.executable
    · simp [Fallback.execute_with_retries, hx, hex] at he
      exact run_attempts_not_skipped t tool_name score p.max_retries _ 0 e he
    · simp [Fallback.execute_with_retries, hx, hex] at he
      subst he; rfl

theorem exec_loop_result (now : Rat) (tools : List (String × Tool))
    (cands : List (String × Rat)) :
    ∀ (p : Fallback.FallbackPolicy) (i : Nat) (log : List Fallback.LogEntry),
    (∃ nm sc k lg d, (Fallback.exec_loop now tools p cands i log).1 =
        Fallback.success_result nm sc k lg d) ∨
    (∃ ext, (Fallback.exec_loop now tools p cands i log).1 =
        Fallback.all_tools_failed_result (log ++ ext) ∧
      ∀ e ∈ ext, e.skipped = true → e.reason = some "circuit_breaker_open") := by
  induction cands with
  | nil =>
    intro p i log
    right
    exact ⟨[], by simp [Fallback.exec_loop], by simp⟩
  | cons c rest ih =>
    intro p i log
    obtain ⟨tool_name, score⟩ := c
    by_cases hc : (Fallback.is_circuit_open p now tool_name).1 = true
    · rcases ih (Fallback.is_circuit_open p now tool_name).2 (i + 1)
        (log ++ [Fallback.skip_entry tool_name score]) with
        ⟨nm, sc, k, lg, d, hq⟩ | ⟨ext, heq, hext⟩
      · left
        exact ⟨nm, sc, k, lg, d, by simpa [Fallback.exec_loop, hc] using hq⟩
      · right
        refine ⟨Fallback.skip_entry tool_name score :: ext, ?_, ?_⟩
        · rw [show log ++ Fallback.skip_entry tool_name score :: ext =
              (log ++ [Fallback.skip_entry tool_name score]) ++ ext by simp]
          simpa [Fallback.exec_loop, hc] using heq
        · intro e he
          rcases List.mem_cons.mp he with he | he
          · intro _; rw [he]; rfl
          · exact hext e he
    · by_cases hs : (Fallback.execute_with_retries
          (Fallback.is_circuit_open p now tool_name).2 tools tool_name
          score).1.success = true
      · left
        refine ⟨tool_name, score, i + 1,
          log ++ (Fallback.execute_with_retries
            (Fallback.is_circuit_open p now tool_name).2 tools tool_name
            score).2,
          (Fallback.execute_with_retries
            (Fallback.is_circuit_open p now tool_name).2 tools tool_name
            score).1.data, ?_⟩
        simp [Fallback.exec_loop, hc, hs]
      · rcases ih (Fallback.record_failure
            (Fallback.is_circuit_open p now tool_name).2 now tool_name) (i + 1)
            (log ++ (Fallback.execute_with_retries
              (Fallback.is_circuit_open p now tool_name).2 tools tool_name
              score).2) with
          ⟨nm, sc, k, lg, d, hq⟩ | ⟨ext, heq, hext⟩
        · left
          exact ⟨nm, sc, k, lg, d, by simpa [Fallback.exec_loop, hc, hs] using hq⟩
        · right
          refine ⟨(Fallback.execute_with_retries
              (Fallback.is_circuit_open p now tool_name).2 tools tool_name
              score).2 ++ ext, ?_, ?_⟩
          · rw [show log ++ ((Fallback.execute_with_retries
                (Fallback.is_circuit_open p now tool_name).2 tools tool_name
                score).2 ++ ext) =
              (log ++ (Fallback.execute_with_retries
                (Fallback.is_circuit_open p now tool_name).2 tools tool_name
                score).2) ++ ext by simp]
            simpa [Fallback.exec_loop, hc, hs] using heq
          · intro e he
            rcases List.mem_append.mp he with he | he
            · intro hsk
              exact absurd hsk (by
                simp [execute_with_retries_not_skipped _ _ _ _ e he])
            · exact hext e he

/-- C3: `execute_with_fallback` is a total function (modelled exceptions are
values, so it never raises) returning a well-formed result dict: whenever it
reports `executed = false` it carries a nonempty human-readable reason, and —
for a nonempty candidate list — the exact lists of tools that failed versus
tools skipped because of an open circuit, every skip being tagged
"circuit_breaker_open". -/
theorem C3_failure_reporting (p : Fallback.FallbackPolicy) (now : Rat)
    (candidates : List (String × Rat)) (tools : List (String × Tool)) :
    ((Fallback.execute_with_fallback p now candidates tools).1.execution.executed
        = false →
      ∃ r, (Fallback.execute_with_fallback p now candidates
          tools).1.execution.reason = some r ∧ r ≠ "") ∧
    (candidates ≠ [] →
      (Fallback.execute_with_fallback p now candidates
          tools).1.execution.executed = false →
      ∃ log, (Fallback.execute_with_fallback p now candidates
          tools).1.execution.execution_log = some log ∧
        (Fallback.execute_with_fallback p now candidates
            tools).1.execution.failed_tools =
          some ((log.filter (fun e => !e.skipped)).map Fallback.LogEntry.tool) ∧
        (Fallback.execute_with_fallback p now candidates
            tools).1.execution.skipped_tools =
          some ((log.filter (fun e => e.skipped)).map Fallback.LogEntry.tool) ∧
        ∀ e ∈ log, e.skipped = true → e.reason = some "circuit_breaker_open") := by
  by_cases hc : candidates = []
  · subst hc
    constructor
    · intro _
      exact ⟨"No suitable tools found", rfl, by decide⟩
    · intro hne
      exact absurd rfl hne
  · have hrw : Fallback.execute_with_fallback p now candidates tools =
        Fallback.exec_loop now tools p candidates 0 [] := by
      simp [Fallback.execute_with_fallback, List.isEmpty_iff, hc]
    rcases exec_loop_result now tools candidates p 0 [] with
      ⟨nm, sc, k, lg, d, hq⟩ | ⟨ext, heq, hext⟩
    · rw [hrw]
      constructor
      · intro hexec
        rw [hq] at hexec
        exact absurd hexec (by simp [Fallback.success_result])
      · intro _ hexec
        rw [hq] at hexec
        exact absurd hexec (by simp [Fallback.success_result])
    · rw [hrw]
      rw [List.nil_append] at heq
      constructor
      · intro _
        rw [heq]
        exact ⟨"All available tools failed or were skipped", rfl, by decide⟩
      · intro _ _
        rw [heq]
        exact ⟨ext, rfl, rfl, rfl, hext⟩

/-- C3 witness: the theorem applied with a single candidate "a" and an empty
tool map (the tool is not executable, so every candidate fails). -/
theorem C3_failure_reporting_witness :
    ∃ log, (Fallback.execute_with_fallback {} 0 [("a", 1)]
        []).1.execution.execution_log = some log ∧
      (Fallback.execute_with_fallback {} 0 [("a", 1)]
          []).1.execution.failed_tools =
        some ((log.filter (fun e => !e.skipped)).map Fallback.LogEntry.tool) ∧
      (Fallback.execute_with_fallback {} 0 [("a", 1)]
          []).1.execution.skipped_tools =
        some ((log.filter (fun e => e.skipped)).map Fallback.LogEntry.tool) ∧
      ∀ e ∈ log, e.skipped = true → e.reason = some "circuit_breaker_open" :=
  (C3_failure_reporting {} 0 [("a", 1)] []).2 (by simp) rfl

/-! ## C4 and C10 — engine retry/fallback driver -/

theorem try_loop_calls_le (t : Tool) (n : String) (s : Rat) :
    ∀ (fuel : Nat) (p : Engine.EnginePolicy) (attempt : Nat) (le : String),
      (Engine.try_loop t n s p attempt le fuel).2.2.length ≤ fuel := by
  intro fuel
  induction fuel with
  | zero => intro p attempt le; simp [Engine.try_loop]
  | succ f ihf =>
    intro p attempt le
    by_cases ha : attempt < 3
    · cases hx : t.execute attempt with
      | ok d => simp [Engine.try_loop, ha, hx]
      | err e =>
        by_cases hr : (p.should_retry n (attempt + 1) e).1 = true ∧
            attempt + 1 < 3
        · have hrec := ihf p (attempt + 1) e
          simp only [Engine.try_loop, if_pos ha, hx, if_pos hr,
            List.length_cons]
          omega
        · simp [Engine.try_loop, ha, hx, hr]
    · simp [Engine.try_loop, ha]

theorem try_tool_calls_le_three (tools : List (String × Tool)) (n : String)
    (s : Rat) (p : Engine.EnginePolicy) :
    (Engine.try_tool_with_retries tools n s p).2.2.length ≤ 3 := by
  cases hx : assocGet tools n with
  | none => simp [Engine.try_tool_with_retries, hx]
  | some t =>
    by_cases hex : t.executable
    · simpa [Engine.try_tool_with_retries, hx, hex] using
        try_loop_calls_le t n s 3 p 0 ""
    · simp [Engine.try_tool_with_retries, hx, hex]

theorem try_loop_success_executed (t : Tool) (n : String) (s : Rat) :
    ∀ (fuel : Nat) (p : Engine.EnginePolicy) (attempt : Nat) (le : String),
      (Engine.try_loop t n s p attempt le fuel).1.success = true →
      (Engine.try_loop t n s p attempt le fuel).1.execution.executed = true := by
  intro fuel
  induction fuel with
  | zero => intro p attempt le h; simp [Engine.try_loop, Engine.failed_result] at h
  | succ f ihf =>
    intro p attempt le h
    by_cases ha : attempt < 3
    · cases hx : t.execute attempt with
      | ok d => simp [Engine.try_loop, ha, hx, Engine.succ_result]
      | err e =>
        by_cases hr : (p.should_retry n (attempt + 1) e).1 = true ∧
            attempt + 1 < 3
        · have := ihf p (attempt + 1) e
          simp only [Engine.try_loop, if_pos ha, hx, if_pos hr] at h ⊢
          exact this h
        · simp [Engine.try_loop, ha, hx, hr, Engine.failed_result] at h
    · simp [Engine.try_loop, ha, Engine.failed_result] at h

theorem try_tool_success_executed (tools : List (String × Tool)) (n : String)
    (s : Rat) (p : Engine.EnginePolicy)
    (h : (Engine.try_tool_with_retries tools n s p).1.success = true) :
    (Engine.try_tool_with_retries tools n s p).1.execution.executed = true := by
  cases hx : assocGet tools n with
  | none =>
    simp [Engine.try_tool_with_retries, hx, Engine.not_executable_result] at h
  | some t =>
    by_cases hex : t.executable
    · rw [Engine.try_tool_with_retries, hx] at h ⊢
      simp only [hex, if_pos] at h ⊢
      exact try_loop_success_executed t n s 3 p 0 "" h
    · simp [Engine.try_tool_with_retries, hx, hex,
        Engine.not_executable_result] at h

theorem try_loop_failures_tail (t : Tool) (n : String) (s : Rat) :
    ∀ (fuel : Nat) (p : Engine.EnginePolicy) (attempt : Nat) (le : String),
      (Engine.try_loop t n s p attempt le fuel).2.1.failures = p.failures ∨
      ∃ e, (Engine.try_loop t n s p attempt le fuel).2.1.failures =
        p.failures ++ [(n, e)] := by
  intro fuel
  induction fuel with
  | zero =>
    intro p attempt le
    right
    exact ⟨le, by simp [Engine.try_loop, Engine.record_failure]⟩
  | succ f ihf =>
    intro p attempt le
    by_cases ha : attempt < 3
    · cases hx : t.execute attempt with
      | ok d => left; simp [Engine.try_loop, ha, hx, Engine.record_success]
      | err e =>
        by_cases hr : (p.should_retry n (attempt + 1) e).1 = true ∧
            attempt + 1 < 3
        · have := ihf p (attempt + 1) e
          simp only [Engine.try_loop, if_pos ha, hx, if_pos hr]
          exact this
        · right
          exact ⟨e, by simp [Engine.try_loop, ha, hx, hr, Engine.record_failure]⟩
    · right
      exact ⟨le, by simp [Engine.try_loop, ha, Engine.record_failure]⟩

theorem try_tool_failures_tail (tools : List (String × Tool)) (n : String)
    (s : Rat) (p : Engine.EnginePolicy) :
    (Engine.try_tool_with_retries tools n s p).2.1.failures = p.failures ∨
    ∃ e, (Engine.try_tool_with_retries tools n s p).2.1.failures =
      p.failures ++ [(n, e)] := by
  cases hx : assocGet tools n with
  | none => left; simp [Engine.try_tool_with_retries, hx]
  | some t =>
    by_cases hex : t.executable
    · rw [Engine.try_tool_with_retries, hx]
      simp only [hex, if_pos]
      exact try_loop_failures_tail t n s 3 p 0 ""
    · left; simp [Engine.try_tool_with_retries, hx, hex]

theorem try_loop_all_err (t : Tool) (n : String) (s : Rat)
    (herr : ∀ i, (t.execute i).isErr = true) :
    ∀ (fuel : Nat) (p : Engine.EnginePolicy) (attempt : Nat) (le : String),
      (Engine.try_loop t n s p attempt le fuel).1.success = false ∧
      ∃ e, (Engine.try_loop t n s p attempt le fuel).2.1.failures =
        p.failures ++ [(n, e)] := by
  intro fuel
  induction fuel with
  | zero =>
    intro p attempt le
    exact ⟨by simp [Engine.try_loop, Engine.failed_result],
      ⟨le, by simp [Engine.try_loop, Engine.record_failure]⟩⟩
  | succ f ihf =>
    intro p attempt le
    by_cases ha : attempt < 3
    · cases hx : t.execute attempt with
      | ok d => exact absurd (herr attempt) (by simp [hx, ExecOutcome.isErr])
      | err e =>
        by_cases hr : (p.should_retry n (attempt + 1) e).1 = true ∧
            attempt + 1 < 3
        · have := ihf p (attempt + 1) e
          simp only [Engine.try_loop, if_pos ha, hx, if_pos hr]
          exact this
        · exact ⟨by simp [Engine.try_loop, ha, hx, hr, Engine.failed_result],
            ⟨e, by simp [Engine.try_loop, ha, hx, hr, Engine.record_failure]⟩⟩
    · exact ⟨by simp [Engine.try_loop, ha, Engine.failed_result],
        ⟨le, by simp [Engine.try_loop, ha, Engine.record_failure]⟩⟩

theorem try_tool_all_err (tools : List (String × Tool)) (n : String)
    (s : Rat) (p : Engine.EnginePolicy) (t : Tool)
    (ht : assocGet tools n = some t) (hex : t.executable = true)
    (herr : ∀ i, (t.execute i).isErr = true) :
    (Engine.try_tool_with_retries tools n s p).1.success = false ∧
    ∃ e, (Engine.try_tool_with_retries tools n s p).2.1.failures =
      p.failures ++ [(n, e)] := by
  rw [Engine.try_tool_with_retries, ht]
  simp only [hex, if_pos]
  exact try_loop_all_err t n s herr 3 p 0 ""

theorem fail_count_record_same (p : Engine.EnginePolicy) (n e : String) :
    Engine.fail_count (Engine.record_failure p n e) n =
      Engine.fail_count p n + 1 := by
  simp [Engine.fail_count, Engine.record_failure, List.filter_append]

/-- C4: with a primary that raises on every attempt and a fallback whose try
succeeds, `execute_with_policy` returns `executed = true`,
`fallback_used = true`, `primary_failed = <primary name>`; and each of the
two tools is attempted at most 3 times in total. -/
theorem C4_fallback_tagging (tools : List (String × Tool))
    (strategy : Engine.Strategy) (p : Engine.EnginePolicy) (t : Tool)
    (fb : String × Rat) (hfb : strategy.fallback = some fb)
    (ht : assocGet tools strategy.primary.1 = some t)
    (hex : t.executable = true)
    (herr : ∀ i, (t.execute i).isErr = true)
    (hfbsucc : (Engine.try_tool_with_retries tools fb.1 fb.2
        (Engine.try_tool_with_retries tools strategy.primary.1
          strategy.primary.2 p).2.1).1.success = true) :
    (Engine.execute_with_policy (some tools) strategy p).1.execution.executed
        = true ∧
    (Engine.execute_with_policy (some tools) strategy
        p).1.execution.fallback_used = some true ∧
    (Engine.execute_with_policy (some tools) strategy
        p).1.execution.primary_failed = some strategy.primary.1 ∧
    (Engine.try_tool_with_retries tools strategy.primary.1 strategy.primary.2
        p).2.2.length ≤ 3 ∧
    (Engine.try_tool_with_retries tools fb.1 fb.2
        (Engine.try_tool_with_retries tools strategy.primary.1
          strategy.primary.2 p).2.1).2.2.length ≤ 3 := by
  have hprim := (try_tool_all_err tools strategy.primary.1 strategy.primary.2
    p t ht hex herr).1
  have hrw : Engine.execute_with_policy (some tools) strategy p =
      (Engine.tag_fallback strategy.primary.1
        (Engine.try_tool_with_retries tools fb.1 fb.2
          (Engine.try_tool_with_retries tools strategy.primary.1
            strategy.primary.2 p).2.1).1,
       (Engine.try_tool_with_retries tools fb.1 fb.2
          (Engine.try_tool_with_retries tools strategy.primary.1
            strategy.primary.2 p).2.1).2.1) := by
    simp [Engine.execute_with_policy, hprim, hfb, hfbsucc]
  refine ⟨?_, ?_, ?_, try_tool_calls_le_three tools strategy.primary.1
    strategy.primary.2 p, try_tool_calls_le_three tools fb.1 fb.2 _⟩
  · rw [hrw]
    simpa [Engine.tag_fallback] using
      try_tool_success_executed tools fb.1 fb.2 _ hfbsucc
  · rw [hrw]; simp [Engine.tag_fallback]
  · rw [hrw]; simp [Engine.tag_fallback]

/-- A tool that raises "boom" on every attempt. -/
def failTool : Tool := { execute := fun _ => .err "boom" }

/-- A tool that returns "data" on its first attempt. -/
def okTool : Tool := { execute := fun _ => .ok "data" }

/-- A tool map holding the always-failing "a" and the succeeding "b". -/
def engineTools : List (String × Tool) := [("a", failTool), ("b", okTool)]

/-- An engine policy that always consents to retrying. -/
def enginePolicy0 : Engine.EnginePolicy :=
  { should_retry := fun _ _ _ => (true, 0) }

/-- Strategy: primary "a", fallback "b". -/
def engineStrategy : Engine.Strategy :=
  { primary := ("a", 5), fallback := some ("b", 3), strategy := "wide" }

/-- C4 witness: the theorem applied to the concrete failing primary "a" and
succeeding fallback "b". -/
theorem C4_fallback_tagging_witness :
    (Engine.execute_with_policy (some engineTools) engineStrategy
        enginePolicy0).1.execution.executed = true ∧
    (Engine.execute_with_policy (some engineTools) engineStrategy
        enginePolicy0).1.execution.fallback_used = some true ∧
    (Engine.execute_with_policy (some engineTools) engineStrategy
        enginePolicy0).1.execution.primary_failed = some "a" ∧
    (Engine.try_tool_with_retries engineTools "a" 5
        enginePolicy0).2.2.length ≤ 3 ∧
    (Engine.try_tool_with_retries engineTools "b" 3
        (Engine.try_tool_with_retries engineTools "a" 5
          enginePolicy0).2.1).2.2.length ≤ 3 :=
  C4_fallback_tagging engineTools engineStrategy enginePolicy0 failTool
    ("b", 3) rfl rfl rfl (fun _ => rfl) rfl

/-- C10: when the primary tool raises on all attempts and no fallback
candidate succeeds, one logical request records exactly two failures for the
primary: one inside `try_tool_with_retries` when its retries are exhausted
and one more in `execute_with_policy` before returning the failure result. -/
theorem C10_primary_failure_recorded_twice (tools : List (String × Tool))
    (strategy : Engine.Strategy) (p : Engine.EnginePolicy) (t : Tool)
    (ht : assocGet tools strategy.primary.1 = some t)
    (hex : t.executable = true)
    (herr : ∀ i, (t.execute i).isErr = true)
    (hnofb : strategy.fallback = none ∨
      ∃ fb, strategy.fallback = some fb ∧ fb.1 ≠ strategy.primary.1 ∧
        (Engine.try_tool_with_retries tools fb.1 fb.2
          (Engine.try_tool_with_retries tools strategy.primary.1
            strategy.primary.2 p).2.1).1.success = false) :
    Engine.fail_count (Engine.execute_with_policy (some tools) strategy p).2
        strategy.primary.1 =
      Engine.fail_count p strategy.primary.1 + 2 := by
  obtain ⟨hprim, e1, hfail1⟩ := try_tool_all_err tools strategy.primary.1
    strategy.primary.2 p t ht hex herr
  have hcount1 : Engine.fail_count
      (Engine.try_tool_with_retries tools strategy.primary.1
        strategy.primary.2 p).2.1 strategy.primary.1 =
      Engine.fail_count p strategy.primary.1 + 1 := by
    simp [Engine.fail_count, hfail1, List.filter_append]
  rcases hnofb with hnone | ⟨fb, hfb, hne, hfbfail⟩
  · have hrw : (Engine.execute_with_policy (some tools) strategy p).2 =
        Engine.record_failure
          (Engine.try_tool_with_retries tools strategy.primary.1
            strategy.primary.2 p).2.1 strategy.primary.1
          ((Engine.try_tool_with_retries tools strategy.primary.1
            strategy.primary.2 p).1.execution.reason.getD "") := by
      simp [Engine.execute_with_policy, hprim, hnone]
    rw [hrw, fail_count_record_same, hcount1]
  · have hcount2 : Engine.fail_count
        (Engine.try_tool_with_retries tools fb.1 fb.2
          (Engine.try_tool_with_retries tools strategy.primary.1
            strategy.primary.2 p).2.1).2.1 strategy.primary.1 =
        Engine.fail_count
          (Engine.try_tool_with_retries tools strategy.primary.1
            strategy.primary.2 p).2.1 strategy.primary.1 := by
      rcases try_tool_failures_tail tools fb.1 fb.2
          (Engine.try_tool_with_retries tools strategy.primary.1
            strategy.primary.2 p).2.1 with hsame | ⟨e2, htail⟩
      · simp [Engine.fail_count, hsame]
      · have hbe : (fb.1 == strategy.primary.1) = false := by
          simpa using hne
        simp [Engine.fail_count, htail, List.filter_append, hbe]
    have hrw : (Engine.execute_with_policy (some tools) strategy p).2 =
        Engine.record_failure
          (Engine.try_tool_with_retries tools fb.1 fb.2
            (Engine.try_tool_with_retries tools strategy.primary.1
              strategy.primary.2 p).2.1).2.1 strategy.primary.1
          ((Engine.try_tool_with_retries tools strategy.primary.1
            strategy.primary.2 p).1.execution.reason.getD "") := by
      simp [Engine.execute_with_policy, hprim, hfb, hfbfail]
    rw [hrw, fail_count_record_same, hcount2, hcount1]

/-- Strategy: primary "a" with no fallback. -/
def engineStrategyNoFb : Engine.Strategy :=
  { primary := ("a", 5), fallback := none, strategy := "narrow" }

/-- C10 witness: the theorem applied to the concrete always-failing primary
"a" with no fallback; its failure count advances by two. -/
theorem C10_primary_failure_recorded_twice_witness :
    Engine.fail_count (Engine.execute_with_policy (some engineTools)
        engineStrategyNoFb enginePolicy0).2 "a" =
      Engine.fail_count enginePolicy0 "a" + 2 :=
  C10_primary_failure_recorded_twice engineTools engineStrategyNoFb
    enginePolicy0 failTool rfl rfl (fun _ => rfl) (Or.inl rfl)

/-! ## C8 — collector error policy and zero budget -/

/-- C8: (a) with a strictly increasing wall clock and a 0-second global
retrieval budget, `collect_structured_evidence` returns the well-formed empty
pair `([], [])` instead of raising; (b) a query whose search raises is
swallowed: within the deadlines, collection simply continues with the
remaining queries (and hence the remaining sources), never aborting
collection as a whole — exceptions are values in this embedding, so the
collector is total by construction. -/
theorem C8_budget_and_error_policy :
    (∀ (ctx : Evidence.CollectorCtx) (topic mode : String)
        (max_per_source : Nat), StrictMono ctx.clock →
        ctx.cfg.GLOBAL_RETRIEVAL_BUDGET_SECS = 0 →
        Evidence.collect_structured_evidence ctx topic mode max_per_source =
          ([], [])) ∧
    (∀ (ctx : Evidence.CollectorCtx) (topic domain : String) (g dd : Rat)
        (max_per_source : Nat) (q : String) (qs : List String) (τ : Nat)
        (items : List Evidence.EvidenceItem) (e : String),
        ctx.searcher q = Except.error e →
        ¬(g < ctx.clock τ) → ¬(dd < ctx.clock (τ + 1)) →
        Evidence.collect_queries ctx topic domain g dd max_per_source
            (q :: qs) τ items =
          Evidence.collect_queries ctx topic domain g dd max_per_source qs
            (τ + 2) items) := by
  constructor
  · intro ctx topic mode max_per_source hmono hzero
    cases hsrc : ctx.cfg.GUIDELINE_SOURCES with
    | nil =>
      simp [Evidence.collect_structured_evidence, hsrc,
        Evidence.collect_domains]
    | cons d rest =>
      obtain ⟨dom, desc⟩ := d
      have hlt : ctx.clock 0 + ctx.cfg.GLOBAL_RETRIEVAL_BUDGET_SECS <
          ctx.clock 1 := by
        rw [hzero, add_zero]
        exact hmono (by omega)
      simp [Evidence.collect_structured_evidence, hsrc,
        Evidence.collect_domains, hlt]
  · intro ctx topic domain g dd max_per_source q qs τ items e herr h1 h2
    simp [Evidence.collect_queries, h1, h2, herr]

/-- The integer wall clock: the `i`-th `time.time()` call returns `i`. -/
def natClock : Nat → Rat := fun n => (n : Rat)

/-- A collector context with a 0-second global budget, one configured domain,
and a search tool that always raises. -/
def ctxZero : Evidence.CollectorCtx :=
  { cfg := { GUIDELINE_SOURCES := [("gwern.net", "Hamming")]
             GLOBAL_RETRIEVAL_BUDGET_SECS := 0
             RESULT_CAP := 25
             build_queries := fun _ _ _ => ["q1"] }
    clock := natClock
    searcher := fun _ => Except.error "boom"
    seed := 0
    select_curated_url := fun _ _ _ => none
    now_iso := "2026-01-01T00:00:00Z" }

/-- C8 witness: both parts applied at the concrete context: zero budget gives
the empty pair; an erroring query steps to the remaining queries. -/
theorem C8_budget_and_error_policy_witness :
    Evidence.collect_structured_evidence ctxZero "topic" "fast" 1 = ([], []) ∧
    Evidence.collect_queries ctxZero "topic" "gwern.net" 10 10 1
        ["q1", "q2"] 0 [] =
      Evidence.collect_queries ctxZero "topic" "gwern.net" 10 10 1 ["q2"] 2 [] :=
  ⟨C8_budget_and_error_policy.1 ctxZero "topic" "fast" 1
      (fun a b h => by
        show ((a : Nat) : Rat) < ((b : Nat) : Rat)
        exact_mod_cast h) rfl,
   C8_budget_and_error_policy.2 ctxZero "topic" "gwern.net" 10 10 1 "q1"
      ["q2"] 0 [] "boom" rfl (by norm_num [ctxZero, natClock])
      (by norm_num [ctxZero, natClock])⟩
